import Mathlib

/-!
# Verification of `stats.py` (tcc-stats)

Shallow embedding of the statistics script `src/stats.py`, which computes
descriptive statistics over GO + PPI datasets, together with theorems
settling the specification claims.

Modelling conventions:
* A parsed ARFF row is the string-keyed part of the library row's `_data`
  dictionary: an association list from column name to raw string value
  (`Row`).  Dictionary keys are unique, which the set-forming code
  (`all_features_names`) reflects via `List.dedup`.
* Python `float` values are modelled exactly as rationals (`ℚ`); the
  decimal literals appearing in the data and in the bucket bounds are all
  exactly representable, so the comparisons agree with IEEE doubles here.
  `float(...)` applied to a plain decimal literal string is modelled by
  `parseDecimal`.
* Exceptions (`assert`, `KeyError`, `IndexError`, `ZeroDivisionError`,
  `raise Exception(...)`) all terminate the program; computations that can
  raise return `Except String`.
* Python's `str.startswith` is the list-prefix test on characters.
-/

/- Batteries marks the `Rat` field operations `@[irreducible]`; make them
unfold again so that concrete statements about the embedded program can be
settled by `decide` (kernel reduction is unaffected either way). -/
attribute [local semireducible] Rat.ofScientific Rat.mul Rat.inv Rat.add Rat.sub

deriving instance DecidableEq for Except

/-- Value of a decimal digit character, `none` otherwise. -/
def digitVal (c : Char) : Option Nat :=
  if '0' ≤ c ∧ c ≤ '9' then some (c.toNat - 48) else none

/-- Read a run of decimal digits as a natural number (empty list reads as 0;
callers guard emptiness where Python would reject it). -/
def digitsToNatAux : List Char → Nat → Option Nat
  | [], acc => some acc
  | c :: cs, acc =>
    match digitVal c with
    | none => none
    | some d => digitsToNatAux cs (acc * 10 + d)

def digitsToNat (cs : List Char) : Option Nat :=
  digitsToNatAux cs 0

def withSign (neg : Bool) (q : ℚ) : ℚ :=
  if neg then -q else q

/-- Python `float(s)` restricted to plain decimal literals
(`[+-]? digits [. digits]?`, at least one digit), the only forms the
datasets contain.  Exponent/`inf`/`nan` forms are out of scope. -/
def parseDecimal (s : String) : Option ℚ :=
  let cs := s.data
  let signed : Bool × List Char :=
    match cs with
    | '-' :: r => (true, r)
    | '+' :: r => (false, r)
    | _ => (false, cs)
  let neg := signed.1
  let body := signed.2
  let ip := body.takeWhile (fun c => !(c == '.'))
  let rest := body.dropWhile (fun c => !(c == '.'))
  match rest with
  | [] =>
    if ip.isEmpty then none
    else (digitsToNat ip).map (fun n => withSign neg (n : ℚ))
  | _ :: frac =>
    if frac.any (fun c => c == '.') then none
    else if ip.isEmpty && frac.isEmpty then none
    else
      match digitsToNat ip, digitsToNat frac with
      | some i, some f =>
          some (withSign neg ((i : ℚ) + (f : ℚ) / (10 : ℚ) ^ frac.length))
      | _, _ => none

/-- One parsed dataset record: the string-keyed entries of the ARFF row's
`_data` dict (column name ↦ raw value), including the reserved `entrez`
and `class` columns. -/
structure Row where
  data : List (String × String)
  deriving DecidableEq

/-- Dictionary lookup `row[k]` (`none` models `KeyError`). -/
def Row.lookup (r : Row) (k : String) : Option String :=
  List.lookup k r.data

/-- Python `str.startswith("GO:")`, as a character-list prefix test. -/
def isGoName (n : String) : Bool :=
  List.isPrefixOf "GO:".data n.data

/-- Source `RowStats.all_features_names`: all string column names minus the
reserved `entrez` and `class` fields (a Python set, modelled as the
deduplicated name list). -/
def Row.allFeaturesNames (r : Row) : List String :=
  ((r.data.map Prod.fst).dedup).filter fun k => !(k == "entrez") && !(k == "class")

/-- Source `RowStats.go_features_names`. -/
def Row.goFeaturesNames (r : Row) : List String :=
  r.allFeaturesNames.filter fun n => isGoName n

/-- Source `RowStats.ppi_features_names`. -/
def Row.ppiFeaturesNames (r : Row) : List String :=
  r.allFeaturesNames.filter fun n => !(isGoName n)

/-- Source `RowStats.num_features`. -/
def Row.numFeatures (r : Row) : Nat :=
  r.allFeaturesNames.length

/-- Source `RowStats.num_go_features`. -/
def Row.numGoFeatures (r : Row) : Nat :=
  r.goFeaturesNames.length

/-- Source `RowStats.num_ppi_features`. -/
def Row.numPpiFeatures (r : Row) : Nat :=
  r.ppiFeaturesNames.length

/-- The `{'0': _, '1': _}` dictionary built by `go_values_counts`. -/
structure GoCounts where
  c0 : Nat
  c1 : Nat
  deriving DecidableEq

/-- The six-bucket dictionary built by `ppi_values_counts`
(`'0'`, `'001->150'`, `'151->400'`, `'401->700'`, `'701->900'`,
`'901->1000'`). -/
structure PpiCounts where
  b0 : Nat
  b150 : Nat
  b400 : Nat
  b700 : Nat
  b900 : Nat
  b1000 : Nat
  deriving DecidableEq

inductive PpiBucket where
  | b0 | b150 | b400 | b700 | b900 | b1000
  deriving DecidableEq

/-- The `if/elif` bucket chain of `ppi_values_counts` on an already-parsed
value; `none` is the final `else: raise Exception(...)` branch. -/
def bucketOf (v : ℚ) : Option PpiBucket :=
  if v = 0 then some .b0
  else if 0 < v ∧ v ≤ 0.150 then some .b150
  else if 0.150 < v ∧ v ≤ 0.400 then some .b400
  else if 0.400 < v ∧ v ≤ 0.700 then some .b700
  else if 0.700 < v ∧ v ≤ 0.900 then some .b900
  else if 0.900 < v ∧ v ≤ 1.000 then some .b1000
  else none

def PpiCounts.incr (c : PpiCounts) : PpiBucket → PpiCounts
  | .b0 => ⟨c.b0 + 1, c.b150, c.b400, c.b700, c.b900, c.b1000⟩
  | .b150 => ⟨c.b0, c.b150 + 1, c.b400, c.b700, c.b900, c.b1000⟩
  | .b400 => ⟨c.b0, c.b150, c.b400 + 1, c.b700, c.b900, c.b1000⟩
  | .b700 => ⟨c.b0, c.b150, c.b400, c.b700 + 1, c.b900, c.b1000⟩
  | .b900 => ⟨c.b0, c.b150, c.b400, c.b700, c.b900 + 1, c.b1000⟩
  | .b1000 => ⟨c.b0, c.b150, c.b400, c.b700, c.b900, c.b1000 + 1⟩

def PpiCounts.total (c : PpiCounts) : Nat :=
  c.b0 + c.b150 + c.b400 + c.b700 + c.b900 + c.b1000

/-- The loop of `go_values_counts`: for each GO feature name, assert the
value is `'0'` or `'1'` and bump the matching counter. -/
def goCountLoop (r : Row) (c : GoCounts) : List String → Except String GoCounts
  | [] => .ok c
  | n :: ns =>
    match r.lookup n with
    | none => .error ("KeyError: " ++ n)
    | some v =>
      if v = "0" then goCountLoop r ⟨c.c0 + 1, c.c1⟩ ns
      else if v = "1" then goCountLoop r ⟨c.c0, c.c1 + 1⟩ ns
      else .error "AssertionError"

/-- Source `RowStats.go_values_counts`. -/
def Row.goValuesCounts (r : Row) : Except String GoCounts :=
  goCountLoop r ⟨0, 0⟩ r.goFeaturesNames

/-- The loop of `ppi_values_counts`: parse each PPI value as a float and
bucket it; an out-of-range value raises
`Invalid PPI value for <name> on instance <entrez>.`. -/
def ppiCountLoop (r : Row) (c : PpiCounts) : List String → Except String PpiCounts
  | [] => .ok c
  | n :: ns =>
    match r.lookup n with
    | none => .error ("KeyError: " ++ n)
    | some s =>
      match parseDecimal s with
      | none => .error ("ValueError: could not convert string to float: " ++ s)
      | some v =>
        match bucketOf v with
        | some b => ppiCountLoop r (c.incr b) ns
        | none =>
          match r.lookup "entrez" with
          | none => .error "KeyError: entrez"
          | some e =>
            .error ("Invalid PPI value for " ++ n ++ " on instance " ++ e ++ ".")

/-- Source `RowStats.ppi_values_counts`. -/
def Row.ppiValuesCounts (r : Row) : Except String PpiCounts :=
  ppiCountLoop r ⟨0, 0, 0, 0, 0, 0⟩ r.ppiFeaturesNames

/-- Python `a / b` on numbers: `ZeroDivisionError` when `b = 0`. -/
def fdiv (a b : ℚ) : Except String ℚ :=
  if b = 0 then .error "ZeroDivisionError: division by zero" else .ok (a / b)

/-- Source `RowStats.validate`: the three `assert`s, in source order (the second
and third force the `go`/`ppi` value counts, so a failure inside those
computations surfaces first, as in Python). -/
def Row.validate (r : Row) : Except String Unit :=
  if r.numFeatures = r.numGoFeatures + r.numPpiFeatures then
    match r.goValuesCounts with
    | .error e => .error e
    | .ok g =>
      if r.numGoFeatures = g.c0 + g.c1 then
        match r.ppiValuesCounts with
        | .error e => .error e
        | .ok p =>
          if r.numPpiFeatures = p.total then .ok ()
          else .error "AssertionError"
      else .error "AssertionError"
  else .error "AssertionError"

/-- Source `RowStats.get_stats`: the ordered 16-entry dict (counts and
percentages), with Python's left-to-right evaluation of the dict literal:
the two value-count computations run first, then the eight divisions in
key order. -/
def Row.getStats (r : Row) : Except String (List (String × ℚ)) := do
  let g ← r.goValuesCounts
  let p ← r.ppiValuesCounts
  let pGO0 ← fdiv g.c0 r.numGoFeatures
  let pGO1 ← fdiv g.c1 r.numGoFeatures
  let pP0 ← fdiv p.b0 r.numPpiFeatures
  let pP150 ← fdiv p.b150 r.numPpiFeatures
  let pP400 ← fdiv p.b400 r.numPpiFeatures
  let pP700 ← fdiv p.b700 r.numPpiFeatures
  let pP900 ← fdiv p.b900 r.numPpiFeatures
  let pP1000 ← fdiv p.b1000 r.numPpiFeatures
  pure [("#GO=0", (g.c0 : ℚ)), ("#GO=1", (g.c1 : ℚ)),
        ("#PPI=0", (p.b0 : ℚ)), ("#PPI=(0;150]", (p.b150 : ℚ)),
        ("#PPI=(150;400]", (p.b400 : ℚ)), ("#PPI=(400;700]", (p.b700 : ℚ)),
        ("#PPI=(700;900]", (p.b900 : ℚ)), ("#PPI=(900;1000]", (p.b1000 : ℚ)),
        ("%GO=0", pGO0), ("%GO=1", pGO1),
        ("%PPI=0", pP0), ("%PPI=(0;150]", pP150),
        ("%PPI=(150;400]", pP400), ("%PPI=(400;700]", pP700),
        ("%PPI=(700;900]", pP900), ("%PPI=(900;1000]", pP1000)]

/-! ## Counter model

`avg_rows_stats` sums the per-row stat dicts with `collections.Counter`.
A `Counter` is an insertion-ordered dict defaulting to `0`; crucially its
in-place addition ends with `_keep_positive`, which deletes every entry
whose value is not `> 0`. -/

/-- Reading `counter[k]` (missing keys read as 0). -/
def cGet (c : List (String × ℚ)) (k : String) : ℚ :=
  (List.lookup k c).getD 0

/-- Writing `counter[k] = v`: update in place, or append a fresh key. -/
def cSet (c : List (String × ℚ)) (k : String) (v : ℚ) : List (String × ℚ) :=
  if c.any (fun kv => kv.1 == k) then
    c.map fun kv => if kv.1 == k then (k, v) else kv
  else c ++ [(k, v)]

/-- In-place addition `Counter.__iadd__`: add the other dict entrywise, then keep only the
strictly positive entries (`_keep_positive`). -/
def cAdd (c other : List (String × ℚ)) : List (String × ℚ) :=
  (other.foldl (fun s kv => cSet s kv.1 (kv.2 + cGet s kv.1)) c).filter
    fun kv => decide (0 < kv.2)

/-- Plain dict access `d[k]` (`KeyError` when absent). -/
def dictGet (c : List (String × ℚ)) (k : String) : Except String ℚ :=
  match List.lookup k c with
  | none => .error ("KeyError: " ++ k)
  | some v => .ok v

/-! ## Dataset-level computation -/

/-- Result of `DatasetStats._calculate`: the fields it assigns.
`rows_stats` holds one `RowStats` per row in arrival order; since row
statistics are pure functions of the row here, it is the row list. -/
structure DSCalc where
  numPos : Nat
  numNeg : Nat
  rowsStats : List Row
  numFeatures : Nat
  numGoFeatures : Nat
  numPpiFeatures : Nat
  deriving DecidableEq

/-- Source `DatasetStats.num_instances` (the derived property). -/
def DSCalc.numInstances (c : DSCalc) : Nat :=
  c.numPos + c.numNeg

/-- The counting loop of `_calculate`: `row['class']` may `KeyError`;
`'0'` counts as negative, anything else as positive. -/
def classifyLoop : List Row → Nat × Nat → Except String (Nat × Nat)
  | [], pn => .ok pn
  | r :: rs, pn =>
    match r.lookup "class" with
    | none => .error "KeyError: class"
    | some c =>
      if c = "0" then classifyLoop rs (pn.1, pn.2 + 1)
      else classifyLoop rs (pn.1 + 1, pn.2)

/-- The per-row body of `DatasetStats._validate`: `row_stats.validate()`
followed by the three feature-count `assert`s. -/
def dsValidateLoop (nf ng np : Nat) : List Row → Except String Unit
  | [] => .ok ()
  | r :: rs =>
    match r.validate with
    | .error e => .error e
    | .ok _ =>
      if nf = r.numFeatures then
        if ng = r.numGoFeatures then
          if np = r.numPpiFeatures then dsValidateLoop nf ng np rs
          else .error "AssertionError"
        else .error "AssertionError"
      else .error "AssertionError"

/-- Source `DatasetStats._calculate` (including its final `_validate()` call):
count classes, collect row stats, read the three reference counts from
`rows_stats[0]` (`IndexError` on an empty dataset), then validate. -/
def datasetCalculate (rows : List Row) : Except String DSCalc := do
  let pn ← classifyLoop rows (0, 0)
  match rows with
  | [] => .error "IndexError: list index out of range"
  | r0 :: _ => do
    let nf := r0.numFeatures
    let ng := r0.numGoFeatures
    let np := r0.numPpiFeatures
    dsValidateLoop nf ng np rows
    pure ⟨pn.1, pn.2, rows, nf, ng, np⟩

/-- The summation loop of `DatasetStats.avg_rows_stats`. -/
def sumRowsStats : List Row → List (String × ℚ) → Except String (List (String × ℚ))
  | [], acc => .ok acc
  | r :: rs, acc => do
    let st ← r.getStats
    sumRowsStats rs (cAdd acc st)

/-- Source `DatasetStats.avg_rows_stats`: sum the per-row stat dicts with a
`Counter`, then divide each surviving key by `num_instances`. -/
def avgRowsStats (rows : List Row) (nInst : Nat) : Except String (List (String × ℚ)) := do
  let summed ← sumRowsStats rows []
  summed.mapM fun kv => do
    let v ← fdiv kv.2 nInst
    pure (kv.1, v)

/-- Source `DatasetStats.get_stats`: the ordered 13-entry report dict, evaluated
left to right (`#Inst` triggers `_calculate`; the first `avg%` entry
triggers `avg_rows_stats`; each `avg%` entry is a plain dict lookup that
may `KeyError`). -/
def datasetGetStats (rows : List Row) : Except String (List (String × ℚ)) := do
  let c ← datasetCalculate rows
  let pGO ← fdiv c.numGoFeatures c.numFeatures
  let pPPI ← fdiv c.numPpiFeatures c.numFeatures
  let avg ← avgRowsStats c.rowsStats c.numInstances
  let aGO0 ← dictGet avg "%GO=0"
  let aGO1 ← dictGet avg "%GO=1"
  let aP0 ← dictGet avg "%PPI=0"
  let aP150 ← dictGet avg "%PPI=(0;150]"
  let aP400 ← dictGet avg "%PPI=(150;400]"
  let aP700 ← dictGet avg "%PPI=(400;700]"
  let aP900 ← dictGet avg "%PPI=(700;900]"
  let aP1000 ← dictGet avg "%PPI=(900;1000]"
  pure [("#Inst", (c.numInstances : ℚ)), ("#Pos", (c.numPos : ℚ)),
        ("#Neg", (c.numNeg : ℚ)),
        ("%GO", pGO), ("%PPI", pPPI),
        ("avg%GO=0", aGO0), ("avg%GO=1", aGO1),
        ("avg%PPI=0", aP0), ("avg%PPI=(0;150]", aP150),
        ("avg%PPI=(150;400]", aP400), ("avg%PPI=(400;700]", aP700),
        ("avg%PPI=(700;900]", aP900), ("avg%PPI=(900;1000]", aP1000)]

/-- The field names of the row `main` hands to the CSV writer: the keys of
`get_stats()` in dict order, then `'Dataset'`, which `main` inserts
afterwards (`dataset_stats['Dataset'] = dataset_name` appends a new key at
the end of the dict). -/
def mainReportKeys (rows : List Row) : Except String (List String) :=
  (datasetGetStats rows).map fun kvs => kvs.map Prod.fst ++ ["Dataset"]

/-! ## Memoization model

`DatasetStats` memoizes: `_calculate` fills all the `_num_*`/`_rows_stats`
fields at once (so they are all `None` or all set — one cache), and
`avg_rows_stats` fills `_avg_rows_stats`.  Accessors re-run the
computation only when the cache field is still `None`.  The state after
each call is returned explicitly. -/

structure DS where
  dataset : List Row
  calcCache : Option DSCalc
  avgCache : Option (List (String × ℚ))
  deriving DecidableEq

/-- Source `DatasetStats.__init__`: caches empty. -/
def DS.init (rows : List Row) : DS :=
  ⟨rows, none, none⟩

/-- The cached-property group filled by `_calculate`. -/
def DS.calc (s : DS) : Except String (DSCalc × DS) :=
  match s.calcCache with
  | some c => .ok (c, s)
  | none => do
    let c ← datasetCalculate s.dataset
    pure (c, ⟨s.dataset, some c, s.avgCache⟩)

/-- The cached `avg_rows_stats` property. -/
def DS.avg (s : DS) : Except String (List (String × ℚ) × DS) :=
  match s.avgCache with
  | some a => .ok (a, s)
  | none => do
    let cs ← s.calc
    let a ← avgRowsStats cs.1.rowsStats cs.1.numInstances
    pure (a, ⟨cs.2.dataset, cs.2.calcCache, some a⟩)

/-- Source `DatasetStats.get_stats` on the memoizing object: returns the report
dict together with the object state after the call. -/
def DS.getStats (s : DS) : Except String (List (String × ℚ) × DS) := do
  let cs ← s.calc
  let c := cs.1
  let pGO ← fdiv c.numGoFeatures c.numFeatures
  let pPPI ← fdiv c.numPpiFeatures c.numFeatures
  let as2 ← cs.2.avg
  let avg := as2.1
  let aGO0 ← dictGet avg "%GO=0"
  let aGO1 ← dictGet avg "%GO=1"
  let aP0 ← dictGet avg "%PPI=0"
  let aP150 ← dictGet avg "%PPI=(0;150]"
  let aP400 ← dictGet avg "%PPI=(150;400]"
  let aP700 ← dictGet avg "%PPI=(400;700]"
  let aP900 ← dictGet avg "%PPI=(700;900]"
  let aP1000 ← dictGet avg "%PPI=(900;1000]"
  pure ([("#Inst", (c.numInstances : ℚ)), ("#Pos", (c.numPos : ℚ)),
         ("#Neg", (c.numNeg : ℚ)),
         ("%GO", pGO), ("%PPI", pPPI),
         ("avg%GO=0", aGO0), ("avg%GO=1", aGO1),
         ("avg%PPI=0", aP0), ("avg%PPI=(0;150]", aP150),
         ("avg%PPI=(150;400]", aP400), ("avg%PPI=(400;700]", aP700),
         ("avg%PPI=(700;900]", aP900), ("avg%PPI=(900;1000]", aP1000)], as2.2)

/-- The memoizing model of `RowStats`: the two cache dicts
(`_features_names` is determined by the row alone, so only the
`_values_count` entries, the fallible computations, are modelled as
cache fields). -/
structure RS where
  row : Row
  goCache : Option GoCounts
  ppiCache : Option PpiCounts
  deriving DecidableEq

def RS.init (r : Row) : RS :=
  ⟨r, none, none⟩

/-- Cached `go_values_counts`. -/
def RS.goCounts (s : RS) : Except String (GoCounts × RS) :=
  match s.goCache with
  | some g => .ok (g, s)
  | none => do
    let g ← s.row.goValuesCounts
    pure (g, ⟨s.row, some g, s.ppiCache⟩)

/-- Cached `ppi_values_counts`. -/
def RS.ppiCounts (s : RS) : Except String (PpiCounts × RS) :=
  match s.ppiCache with
  | some p => .ok (p, s)
  | none => do
    let p ← s.row.ppiValuesCounts
    pure (p, ⟨s.row, s.goCache, some p⟩)

/-- Source `RowStats.get_stats` on the memoizing object. -/
def RS.getStats (s : RS) : Except String (List (String × ℚ) × RS) := do
  let gs1 ← s.goCounts
  let g := gs1.1
  let ps2 ← gs1.2.ppiCounts
  let p := ps2.1
  let pGO0 ← fdiv g.c0 ps2.2.row.numGoFeatures
  let pGO1 ← fdiv g.c1 ps2.2.row.numGoFeatures
  let pP0 ← fdiv p.b0 ps2.2.row.numPpiFeatures
  let pP150 ← fdiv p.b150 ps2.2.row.numPpiFeatures
  let pP400 ← fdiv p.b400 ps2.2.row.numPpiFeatures
  let pP700 ← fdiv p.b700 ps2.2.row.numPpiFeatures
  let pP900 ← fdiv p.b900 ps2.2.row.numPpiFeatures
  let pP1000 ← fdiv p.b1000 ps2.2.row.numPpiFeatures
  pure ([("#GO=0", (g.c0 : ℚ)), ("#GO=1", (g.c1 : ℚ)),
         ("#PPI=0", (p.b0 : ℚ)), ("#PPI=(0;150]", (p.b150 : ℚ)),
         ("#PPI=(150;400]", (p.b400 : ℚ)), ("#PPI=(400;700]", (p.b700 : ℚ)),
         ("#PPI=(700;900]", (p.b900 : ℚ)), ("#PPI=(900;1000]", (p.b1000 : ℚ)),
         ("%GO=0", pGO0), ("%GO=1", pGO1),
         ("%PPI=0", pP0), ("%PPI=(0;150]", pP150),
         ("%PPI=(150;400]", pP400), ("%PPI=(400;700]", pP700),
         ("%PPI=(700;900]", pP900), ("%PPI=(900;1000]", pP1000)], ps2.2)

/-! ## Concrete datasets used in witnesses and counterexamples -/

/-- A row of the spec's 3-row scenario: 2 GO features valued 0 and 1, and
2 PPI features valued 0.0 and 0.5. -/
def scenarioRow (e c : String) : Row :=
  ⟨[("entrez", e), ("class", c), ("GO:1", "0"), ("GO:2", "1"),
    ("ppi1", "0.0"), ("ppi2", "0.5")]⟩

/-- The spec's scenario dataset: 3 such rows with classes 0, 1, 1. -/
def threeRowDataset : List Row :=
  [scenarioRow "E1" "0", scenarioRow "E2" "1", scenarioRow "E3" "1"]

/-- A single row hitting both GO values and all six PPI buckets, so that
every statistic is positive and the whole report succeeds. -/
def fullRow : Row :=
  ⟨[("entrez", "E1"), ("class", "1"), ("GO:1", "0"), ("GO:2", "1"),
    ("p1", "0.0"), ("p2", "0.1"), ("p3", "0.2"), ("p4", "0.5"),
    ("p5", "0.8"), ("p6", "0.95")]⟩

/-- A first row with two GO features. -/
def rowTwoGO : Row :=
  ⟨[("entrez", "E1"), ("class", "1"), ("GO:1", "0"), ("GO:2", "1"),
    ("ppi1", "0.5")]⟩

/-- A second row with three GO features (heterogeneous schema). -/
def rowThreeGO : Row :=
  ⟨[("entrez", "E2"), ("class", "1"), ("GO:1", "0"), ("GO:2", "1"),
    ("GO:3", "1"), ("ppi1", "0.5")]⟩

/-- The successful report of the one-row `fullRow` dataset. -/
def fullRowRep : List (String × ℚ) :=
  [("#Inst", 1), ("#Pos", 1), ("#Neg", 0), ("%GO", 1/4), ("%PPI", 3/4),
   ("avg%GO=0", 1/2), ("avg%GO=1", 1/2), ("avg%PPI=0", 1/6),
   ("avg%PPI=(0;150]", 1/6), ("avg%PPI=(150;400]", 1/6),
   ("avg%PPI=(400;700]", 1/6), ("avg%PPI=(700;900]", 1/6),
   ("avg%PPI=(900;1000]", 1/6)]

/-- Check whether an `Except` value is a success. -/
def exceptIsOk {ε α : Type _} : Except ε α → Bool
  | .ok _ => true
  | .error _ => false

/-! ## Helper lemmas -/

theorem exceptIsOk_iff {ε α : Type _} (x : Except ε α) :
    exceptIsOk x = true ↔ ∃ a, x = .ok a := by
  cases x <;> simp [exceptIsOk]

theorem exceptBind_ok {ε α β : Type _} {x : Except ε α} {f : α → Except ε β} {b : β} :
    x >>= f = .ok b ↔ ∃ a, x = .ok a ∧ f a = .ok b := by
  cases x <;> simp [Bind.bind, Except.bind]

theorem exceptPure_eq {ε α : Type _} (a : α) : (pure a : Except ε α) = .ok a := rfl

theorem exceptMap_eq {ε α β : Type _} (f : α → β) (x : Except ε α) :
    f <$> x = x.map f := rfl

theorem lookup_of_mem_keys {β : Type _} :
    ∀ (l : List (String × β)) (n : String), n ∈ l.map Prod.fst →
      ∃ v, List.lookup n l = some v
  | [], n, h => by simp at h
  | kv :: l, n, h => by
    rw [List.lookup_cons]
    by_cases he : n = kv.1
    · simp [he]
    · have hb : (n == kv.1) = false := by simp [he]
      rw [hb]
      apply lookup_of_mem_keys l n
      simp only [List.map_cons, List.mem_cons] at h
      exact h.resolve_left he

theorem Row.lookup_of_mem_allFeaturesNames (r : Row) (n : String)
    (h : n ∈ r.allFeaturesNames) : ∃ v, r.lookup n = some v := by
  apply lookup_of_mem_keys
  have h1 : n ∈ (r.data.map Prod.fst).dedup := (List.mem_filter.mp h).1
  exact List.mem_dedup.mp h1

theorem length_filter_partition {α : Type _} (l : List α) (p : α → Bool) :
    (l.filter p).length + (l.filter fun x => !(p x)).length = l.length := by
  induction l with
  | nil => rfl
  | cons a l ih =>
    by_cases h : p a = true <;>
      simp [List.filter_cons, h, ← ih] <;> omega

theorem except_error_iff_not_ok {ε α : Type _} (x : Except ε α) :
    (∃ e, x = .error e) ↔ ¬ ∃ a, x = .ok a := by
  cases x <;> simp

theorem bucketOf_b0_iff (v : ℚ) : bucketOf v = some .b0 ↔ v = 0 := by
  unfold bucketOf
  split_ifs <;> simp_all

theorem bucketOf_b150_iff (v : ℚ) :
    bucketOf v = some .b150 ↔ 0 < v ∧ v ≤ 0.150 := by
  unfold bucketOf
  split_ifs <;> simp_all

theorem bucketOf_b400_iff (v : ℚ) :
    bucketOf v = some .b400 ↔ 0.150 < v ∧ v ≤ 0.400 := by
  unfold bucketOf
  split_ifs <;> simp_all <;> intro h0 <;> linarith

theorem bucketOf_b700_iff (v : ℚ) :
    bucketOf v = some .b700 ↔ 0.400 < v ∧ v ≤ 0.700 := by
  unfold bucketOf
  split_ifs <;> simp_all <;> intro h0 <;> linarith

theorem bucketOf_b900_iff (v : ℚ) :
    bucketOf v = some .b900 ↔ 0.700 < v ∧ v ≤ 0.900 := by
  unfold bucketOf
  split_ifs <;> simp_all <;> intro h0 <;> linarith

theorem bucketOf_b1000_iff (v : ℚ) :
    bucketOf v = some .b1000 ↔ 0.900 < v ∧ v ≤ 1.000 := by
  unfold bucketOf
  split_ifs <;> simp_all <;> intro h0 <;> linarith

theorem bucketOf_none_iff (v : ℚ) :
    bucketOf v = none ↔ (v < 0 ∨ 1 < v) := by
  unfold bucketOf
  split_ifs with h1 h2 h3 h4 h5 h6
  · simp only [h1]
    norm_num
  · simp only [reduceCtorEq, false_iff]
    rintro (h | h) <;> rcases h2 with ⟨a, b⟩ <;> linarith
  · simp only [reduceCtorEq, false_iff]
    rintro (h | h) <;> rcases h3 with ⟨a, b⟩ <;> linarith
  · simp only [reduceCtorEq, false_iff]
    rintro (h | h) <;> rcases h4 with ⟨a, b⟩ <;> linarith
  · simp only [reduceCtorEq, false_iff]
    rintro (h | h) <;> rcases h5 with ⟨a, b⟩ <;> linarith
  · simp only [reduceCtorEq, false_iff]
    rintro (h | h) <;> rcases h6 with ⟨a, b⟩ <;> linarith
  · simp only [true_iff]
    rcases lt_or_ge v 0 with hneg | hpos
    · exact Or.inl hneg
    · right
      push_neg at h2 h3 h4 h5 h6
      have hv0 : 0 < v := lt_of_le_of_ne hpos (Ne.symm h1)
      have t2 := h2 hv0
      have t3 := h3 t2
      have t4 := h4 t3
      have t5 := h5 t4
      exact h6 t5

theorem goCountLoop_ok_counts (r : Row) (ns : List String) :
    ∀ (c c' : GoCounts), goCountLoop r c ns = .ok c' →
      c'.c0 = c.c0 + ns.countP (fun n => r.lookup n == some "0") ∧
      c'.c1 = c.c1 + ns.countP (fun n => r.lookup n == some "1") := by
  induction ns with
  | nil =>
    intro c c' h
    simp only [goCountLoop] at h
    cases h
    simp
  | cons n ns ih =>
    intro c c' h
    simp only [goCountLoop] at h
    cases hl : r.lookup n with
    | none => simp only [hl] at h; cases h
    | some v =>
      simp only [hl] at h
      by_cases h0 : v = "0"
      · rw [if_pos h0] at h
        obtain ⟨e0, e1⟩ := ih _ _ h
        subst h0
        refine ⟨?_, ?_⟩ <;> simp [List.countP_cons, hl, e0, e1] <;> omega
      · rw [if_neg h0] at h
        by_cases h1 : v = "1"
        · rw [if_pos h1] at h
          obtain ⟨e0, e1⟩ := ih _ _ h
          subst h1
          refine ⟨?_, ?_⟩ <;> simp [List.countP_cons, hl, h0, e0, e1] <;> omega
        · rw [if_neg h1] at h
          cases h

theorem goCountLoop_ok_total (r : Row) (ns : List String) :
    ∀ (c c' : GoCounts), goCountLoop r c ns = .ok c' →
      c'.c0 + c'.c1 = c.c0 + c.c1 + ns.length := by
  induction ns with
  | nil =>
    intro c c' h
    simp only [goCountLoop] at h
    cases h
    simp
  | cons n ns ih =>
    intro c c' h
    simp only [goCountLoop] at h
    cases hl : r.lookup n with
    | none => simp only [hl] at h; cases h
    | some v =>
      simp only [hl] at h
      by_cases h0 : v = "0"
      · rw [if_pos h0] at h
        have := ih _ _ h
        simp only [List.length_cons] at this ⊢
        omega
      · rw [if_neg h0] at h
        by_cases h1 : v = "1"
        · rw [if_pos h1] at h
          have := ih _ _ h
          simp only [List.length_cons] at this ⊢
          omega
        · rw [if_neg h1] at h
          cases h

theorem goCountLoop_ok_iff (r : Row) (ns : List String)
    (hmem : ∀ n ∈ ns, ∃ v, r.lookup n = some v) :
    ∀ c : GoCounts, (∃ c', goCountLoop r c ns = .ok c') ↔
      ∀ n ∈ ns, ∀ v, r.lookup n = some v → (v = "0" ∨ v = "1") := by
  induction ns with
  | nil =>
    intro c
    simp [goCountLoop]
  | cons n ns ih =>
    intro c
    obtain ⟨v, hv⟩ := hmem n (by simp)
    have ih' := ih (fun m hm => hmem m (by simp [hm]))
    constructor
    · rintro ⟨c', h⟩
      simp only [goCountLoop, hv] at h
      intro m hm w hw
      rcases List.mem_cons.mp hm with rfl | hm'
      · rw [hv] at hw
        cases hw
        by_cases h0 : v = "0"
        · exact Or.inl h0
        · rw [if_neg h0] at h
          by_cases h1 : v = "1"
          · exact Or.inr h1
          · rw [if_neg h1] at h
            cases h
      · by_cases h0 : v = "0"
        · rw [if_pos h0] at h
          exact ((ih' _).mp ⟨c', h⟩) m hm' w hw
        · rw [if_neg h0] at h
          by_cases h1 : v = "1"
          · rw [if_pos h1] at h
            exact ((ih' _).mp ⟨c', h⟩) m hm' w hw
          · rw [if_neg h1] at h
            cases h
    · intro hgood
      have hv01 := hgood n (by simp) v hv
      have hrest : ∀ m ∈ ns, ∀ w, r.lookup m = some w → (w = "0" ∨ w = "1") :=
        fun m hm w hw => hgood m (by simp [hm]) w hw
      by_cases h0 : v = "0"
      · obtain ⟨c', hc'⟩ := (ih' ⟨c.c0 + 1, c.c1⟩).mpr hrest
        refine ⟨c', ?_⟩
        simp only [goCountLoop, hv]
        rw [if_pos h0]
        exact hc'
      · have h1 : v = "1" := hv01.resolve_left h0
        obtain ⟨c', hc'⟩ := (ih' ⟨c.c0, c.c1 + 1⟩).mpr hrest
        refine ⟨c', ?_⟩
        simp only [goCountLoop, hv]
        rw [if_neg h0, if_pos h1]
        exact hc'

theorem PpiCounts.total_incr (c : PpiCounts) (b : PpiBucket) :
    (c.incr b).total = c.total + 1 := by
  cases b <;> simp [PpiCounts.incr, PpiCounts.total] <;> omega

theorem ppiCountLoop_ok_total (r : Row) (ns : List String) :
    ∀ (c c' : PpiCounts), ppiCountLoop r c ns = .ok c' →
      c'.total = c.total + ns.length := by
  induction ns with
  | nil =>
    intro c c' h
    simp only [ppiCountLoop] at h
    cases h
    simp
  | cons n ns ih =>
    intro c c' h
    simp only [ppiCountLoop] at h
    cases hl : r.lookup n with
    | none => simp only [hl] at h; cases h
    | some s =>
      simp only [hl] at h
      cases hp : parseDecimal s with
      | none => simp only [hp] at h; cases h
      | some v =>
        simp only [hp] at h
        cases hb : bucketOf v with
        | none =>
          simp only [hb] at h
          cases he : r.lookup "entrez" with
          | none => simp only [he] at h; cases h
          | some e => simp only [he] at h; cases h
        | some b =>
          simp only [hb] at h
          have := ih _ _ h
          rw [PpiCounts.total_incr] at this
          simp only [List.length_cons]
          omega

theorem classifyLoop_ok (rows : List Row) :
    ∀ (pn pn' : Nat × Nat), classifyLoop rows pn = .ok pn' →
      pn'.1 = pn.1 + rows.countP (fun r => !(Row.lookup r "class" == some "0")) ∧
      pn'.2 = pn.2 + rows.countP (fun r => Row.lookup r "class" == some "0") := by
  induction rows with
  | nil =>
    intro pn pn' h
    simp only [classifyLoop] at h
    cases h
    simp
  | cons r rs ih =>
    intro pn pn' h
    simp only [classifyLoop] at h
    cases hl : Row.lookup r "class" with
    | none => simp only [hl] at h; cases h
    | some c =>
      simp only [hl] at h
      by_cases h0 : c = "0"
      · rw [if_pos h0] at h
        obtain ⟨e1, e2⟩ := ih _ _ h
        subst h0
        refine ⟨?_, ?_⟩ <;> simp [List.countP_cons, hl, e1, e2] <;> omega
      · rw [if_neg h0] at h
        obtain ⟨e1, e2⟩ := ih _ _ h
        refine ⟨?_, ?_⟩ <;> simp [List.countP_cons, hl, h0, e1, e2] <;> omega

theorem dsValidateLoop_ok (nf ng np : Nat) (rows : List Row)
    (h : dsValidateLoop nf ng np rows = .ok ()) :
    ∀ r ∈ rows, Row.validate r = .ok () ∧ nf = r.numFeatures ∧
      ng = r.numGoFeatures ∧ np = r.numPpiFeatures := by
  induction rows with
  | nil => intro r hr; simp at hr
  | cons r rs ih =>
    intro r' hr'
    simp only [dsValidateLoop] at h
    cases hval : r.validate with
    | error e => simp only [hval] at h; cases h
    | ok u =>
      simp only [hval] at h
      have hc1 : nf = r.numFeatures := by
        by_contra hc
        rw [if_neg hc] at h
        cases h
      rw [if_pos hc1] at h
      have hc2 : ng = r.numGoFeatures := by
        by_contra hc
        rw [if_neg hc] at h
        cases h
      rw [if_pos hc2] at h
      have hc3 : np = r.numPpiFeatures := by
        by_contra hc
        rw [if_neg hc] at h
        cases h
      rw [if_pos hc3] at h
      rcases List.mem_cons.mp hr' with rfl | hmem
      · exact ⟨by cases u; exact hval, hc1, hc2, hc3⟩
      · exact ih h r' hmem

theorem datasetCalculate_ok (rows : List Row) (st : DSCalc)
    (h : datasetCalculate rows = .ok st) :
    ∃ r0 rs, rows = r0 :: rs ∧
      classifyLoop rows (0, 0) = .ok (st.numPos, st.numNeg) ∧
      dsValidateLoop r0.numFeatures r0.numGoFeatures r0.numPpiFeatures rows
        = .ok () ∧
      st.rowsStats = rows ∧ st.numFeatures = r0.numFeatures ∧
      st.numGoFeatures = r0.numGoFeatures ∧
      st.numPpiFeatures = r0.numPpiFeatures := by
  cases rows with
  | nil =>
    exfalso
    simp only [datasetCalculate] at h
    rw [exceptBind_ok] at h
    obtain ⟨pn, hcl, h⟩ := h
    cases h
  | cons r0 rs =>
    simp only [datasetCalculate] at h
    rw [exceptBind_ok] at h
    obtain ⟨pn, hcl, h⟩ := h
    rw [exceptBind_ok] at h
    obtain ⟨u, hval, h⟩ := h
    rw [exceptPure_eq] at h
    cases h
    refine ⟨r0, rs, rfl, by simpa using hcl, by cases u; exact hval,
      rfl, rfl, rfl, rfl⟩

theorem ppiCountLoop_ok_good (r : Row) (ns : List String) :
    ∀ (c c' : PpiCounts), ppiCountLoop r c ns = .ok c' →
      ∀ n ∈ ns, ∀ s, r.lookup n = some s →
        ∀ q, parseDecimal s = some q → bucketOf q ≠ none := by
  induction ns with
  | nil =>
    intro c c' h n hn
    simp at hn
  | cons n ns ih =>
    intro c c' h m hm s hs q hq
    simp only [ppiCountLoop] at h
    cases hl : r.lookup n with
    | none => simp only [hl] at h; cases h
    | some s0 =>
      simp only [hl] at h
      cases hp : parseDecimal s0 with
      | none => simp only [hp] at h; cases h
      | some v =>
        simp only [hp] at h
        cases hb : bucketOf v with
        | none =>
          simp only [hb] at h
          cases he : r.lookup "entrez" with
          | none => simp only [he] at h; cases h
          | some e => simp only [he] at h; cases h
        | some b =>
          simp only [hb] at h
          rcases List.mem_cons.mp hm with rfl | hm'
          · rw [hl] at hs
            cases hs
            rw [hp] at hq
            cases hq
            simp [hb]
          · exact ih _ _ h m hm' s hs q hq

/-! ## Claim theorems -/

/-- C9: on the empty dataset `_calculate` reads `rows_stats[0]` and fails
with an `IndexError`, so `get_stats` produces nothing. -/
theorem empty_dataset_fails :
    datasetCalculate [] = .error "IndexError: list index out of range" ∧
    datasetGetStats [] = .error "IndexError: list index out of range" := by
  constructor <;> decide

set_option maxRecDepth 10000 in
/-- C1: on the spec's 3-row scenario the report is never produced: every
row's `%PPI=(0;150]` statistic is `0.0`, `Counter` addition in
`avg_rows_stats` therefore drops that key (`_keep_positive`), and
`get_stats` dies with a `KeyError` instead of reporting `0.0`. -/
theorem threeRowScenario_keyError :
    datasetGetStats threeRowDataset = .error "KeyError: %PPI=(0;150]" := by
  decide

/-- C2: a parsed PPI value lands in exactly one bucket, with
upper-inclusive boundaries (`0.150` in `(0,0.150]`, `0.0` in `0`,
`1.000` in `(0.900,1.000]`), the `raise` branch is taken exactly for
values negative or exceeding 1, and such a value makes
`ppi_values_counts` fail naming the feature and the row's entrez id. -/
theorem ppi_bucket_spec :
    (∀ v : ℚ, bucketOf v = some .b0 ↔ v = 0) ∧
    (∀ v : ℚ, bucketOf v = some .b150 ↔ 0 < v ∧ v ≤ 0.150) ∧
    (∀ v : ℚ, bucketOf v = some .b400 ↔ 0.150 < v ∧ v ≤ 0.400) ∧
    (∀ v : ℚ, bucketOf v = some .b700 ↔ 0.400 < v ∧ v ≤ 0.700) ∧
    (∀ v : ℚ, bucketOf v = some .b900 ↔ 0.700 < v ∧ v ≤ 0.900) ∧
    (∀ v : ℚ, bucketOf v = some .b1000 ↔ 0.900 < v ∧ v ≤ 1.000) ∧
    (∀ v : ℚ, bucketOf v = none ↔ (v < 0 ∨ 1 < v)) ∧
    (∀ (s : String) (q : ℚ), parseDecimal s = some q → (q < 0 ∨ 1 < q) →
      Row.ppiValuesCounts ⟨[("entrez", "E1"), ("class", "0"), ("ppiX", s)]⟩ =
        .error "Invalid PPI value for ppiX on instance E1.") ∧
    (∀ (r : Row) (n : String), n ∈ r.ppiFeaturesNames →
      ∀ s, r.lookup n = some s → ∀ q, parseDecimal s = some q →
      (q < 0 ∨ 1 < q) → ∃ e, r.ppiValuesCounts = .error e) := by
  refine ⟨bucketOf_b0_iff, bucketOf_b150_iff, bucketOf_b400_iff,
    bucketOf_b700_iff, bucketOf_b900_iff, bucketOf_b1000_iff,
    bucketOf_none_iff, ?_, ?_⟩
  case refine_2 =>
    intro r n hn s hs q hq hrange
    cases hres : r.ppiValuesCounts with
    | error e => exact ⟨e, rfl⟩
    | ok p =>
      exfalso
      exact ppiCountLoop_ok_good r r.ppiFeaturesNames _ _ hres n hn s hs q hq
        ((bucketOf_none_iff q).mpr hrange)
  intro s q hq hrange
  have hnames : Row.ppiFeaturesNames ⟨[("entrez", "E1"), ("class", "0"), ("ppiX", s)]⟩
      = ["ppiX"] := rfl
  have hlook : Row.lookup ⟨[("entrez", "E1"), ("class", "0"), ("ppiX", s)]⟩ "ppiX"
      = some s := rfl
  have hent : Row.lookup ⟨[("entrez", "E1"), ("class", "0"), ("ppiX", s)]⟩ "entrez"
      = some "E1" := rfl
  unfold Row.ppiValuesCounts
  rw [hnames]
  simp only [ppiCountLoop, hlook, hq, (bucketOf_none_iff q).mpr hrange, hent]
  rfl

/-- Witness for C2 at the spec's boundary values. -/
theorem ppi_bucket_spec_witness :
    bucketOf 0.150 = some .b150 ∧ bucketOf 0 = some .b0 ∧
    bucketOf 1.000 = some .b1000 ∧
    Row.ppiValuesCounts ⟨[("entrez", "E1"), ("class", "0"), ("ppiX", "1.0001")]⟩ =
      .error "Invalid PPI value for ppiX on instance E1." ∧
    Row.ppiValuesCounts ⟨[("entrez", "E1"), ("class", "0"), ("ppiX", "-0.01")]⟩ =
      .error "Invalid PPI value for ppiX on instance E1." :=
  ⟨(ppi_bucket_spec.2.1 0.150).mpr (by constructor <;> norm_num),
   (ppi_bucket_spec.1 0).mpr rfl,
   (ppi_bucket_spec.2.2.2.2.2.1 1.000).mpr (by constructor <;> norm_num),
   ppi_bucket_spec.2.2.2.2.2.2.2.1 "1.0001" (10001/10000) (by decide)
     (Or.inr (by norm_num)),
   ppi_bucket_spec.2.2.2.2.2.2.2.1 "-0.01" (-1/100) (by decide)
     (Or.inl (by norm_num))⟩

/-- C3: `go_values_counts` fails exactly when some GO feature holds a
value other than `"0"`/`"1"`; on success the two keys count the GO
features holding each value; a GO value of `"2"` is fatal. -/
theorem go_values_counts_spec (r : Row) :
    ((∃ e, r.goValuesCounts = .error e) ↔
      ∃ n ∈ r.goFeaturesNames, ∃ v, r.lookup n = some v ∧ v ≠ "0" ∧ v ≠ "1") ∧
    (∀ g, r.goValuesCounts = .ok g →
      g.c0 = r.goFeaturesNames.countP (fun n => r.lookup n == some "0") ∧
      g.c1 = r.goFeaturesNames.countP (fun n => r.lookup n == some "1")) ∧
    Row.goValuesCounts ⟨[("entrez", "E1"), ("class", "1"), ("GO:9", "2")]⟩ =
      .error "AssertionError" := by
  have hmem : ∀ n ∈ r.goFeaturesNames, ∃ v, r.lookup n = some v := by
    intro n hn
    exact r.lookup_of_mem_allFeaturesNames n (List.mem_filter.mp hn).1
  refine ⟨?_, ?_, by decide⟩
  · unfold Row.goValuesCounts
    rw [except_error_iff_not_ok,
      goCountLoop_ok_iff r r.goFeaturesNames hmem ⟨0, 0⟩]
    push_neg
    simp only [not_or]
  · intro g hg
    have := goCountLoop_ok_counts r r.goFeaturesNames ⟨0, 0⟩ g hg
    simpa using this

/-- Witness for C3 on a concrete valid row. -/
theorem go_values_counts_spec_witness :
    (1 : Nat) = (Row.goFeaturesNames (scenarioRow "E1" "0")).countP
        (fun n => Row.lookup (scenarioRow "E1" "0") n == some "0") ∧
    (1 : Nat) = (Row.goFeaturesNames (scenarioRow "E1" "0")).countP
        (fun n => Row.lookup (scenarioRow "E1" "0") n == some "1") := by
  have h := (go_values_counts_spec (scenarioRow "E1" "0")).2.1 ⟨1, 1⟩ (by decide)
  exact h

/-- C5: for any row with valid GO and PPI values, the feature-name
partition and the two count sums line up, so `RowStats.validate` passes. -/
theorem row_invariants (r : Row) (g : GoCounts) (p : PpiCounts)
    (hg : r.goValuesCounts = .ok g) (hp : r.ppiValuesCounts = .ok p) :
    r.numFeatures = r.numGoFeatures + r.numPpiFeatures ∧
    g.c0 + g.c1 = r.numGoFeatures ∧
    p.total = r.numPpiFeatures ∧
    r.validate = .ok () := by
  have hpart : r.numFeatures = r.numGoFeatures + r.numPpiFeatures := by
    unfold Row.numFeatures Row.numGoFeatures Row.numPpiFeatures
      Row.goFeaturesNames Row.ppiFeaturesNames
    exact (length_filter_partition r.allFeaturesNames fun n => isGoName n).symm
  have hgsum : g.c0 + g.c1 = r.numGoFeatures := by
    have := goCountLoop_ok_total r r.goFeaturesNames ⟨0, 0⟩ g hg
    simpa [Row.numGoFeatures] using this
  have hpsum : p.total = r.numPpiFeatures := by
    have := ppiCountLoop_ok_total r r.ppiFeaturesNames ⟨0, 0, 0, 0, 0, 0⟩ p hp
    simpa [Row.numPpiFeatures, PpiCounts.total] using this
  refine ⟨hpart, hgsum, hpsum, ?_⟩
  have c1 : (r.numFeatures = r.numGoFeatures + r.numPpiFeatures) = True :=
    eq_true hpart
  have c2 : (r.numGoFeatures = g.c0 + g.c1) = True := eq_true hgsum.symm
  have c3 : (r.numPpiFeatures = p.total) = True := eq_true hpsum.symm
  simp only [Row.validate, c1, c2, c3, if_true, hg, hp]

/-- Witness for C5 on a concrete valid row. -/
theorem row_invariants_witness :
    Row.numFeatures (scenarioRow "E1" "0") =
      Row.numGoFeatures (scenarioRow "E1" "0") +
        Row.numPpiFeatures (scenarioRow "E1" "0") ∧
    (1 : Nat) + 1 = Row.numGoFeatures (scenarioRow "E1" "0") ∧
    PpiCounts.total ⟨1, 0, 0, 1, 0, 0⟩ = Row.numPpiFeatures (scenarioRow "E1" "0") ∧
    Row.validate (scenarioRow "E1" "0") = .ok () :=
  row_invariants (scenarioRow "E1" "0") ⟨1, 1⟩ ⟨1, 0, 0, 1, 0, 0⟩
    (by decide) (by decide)

/-- C4: a dataset in which some row's feature counts differ from row 0's
never yields a report: `_validate` (run inside `_calculate`, before
`get_stats` builds its dict) hits a failing assert, so the whole
computation errors out. -/
theorem heterogeneous_schema_fatal (r0 : Row) (rest : List Row)
    (hbad : ∃ r ∈ r0 :: rest, r.numFeatures ≠ r0.numFeatures ∨
      r.numGoFeatures ≠ r0.numGoFeatures ∨
      r.numPpiFeatures ≠ r0.numPpiFeatures) :
    ∃ e, datasetGetStats (r0 :: rest) = .error e := by
  cases hres : datasetGetStats (r0 :: rest) with
  | error e => exact ⟨e, rfl⟩
  | ok rep =>
    exfalso
    unfold datasetGetStats at hres
    rw [exceptBind_ok] at hres
    obtain ⟨st, hcal, _⟩ := hres
    obtain ⟨r0', rs', heq, _, hval, _, _, _, _⟩ := datasetCalculate_ok _ _ hcal
    obtain ⟨h1, h2⟩ := List.cons.inj heq
    subst h1
    subst h2
    obtain ⟨r, hr, hne⟩ := hbad
    have hall := dsValidateLoop_ok _ _ _ _ hval r hr
    rcases hne with h | h | h
    · exact h hall.2.1.symm
    · exact h hall.2.2.1.symm
    · exact h hall.2.2.2.symm

/-- Witness for C4: the spec's schema-mismatch scenario (2 GO features in
row 0, 3 in row 1). -/
theorem heterogeneous_schema_fatal_witness :
    ∃ e, datasetGetStats [rowTwoGO, rowThreeGO] = .error e :=
  heterogeneous_schema_fatal rowTwoGO [rowThreeGO]
    ⟨rowThreeGO, by simp, Or.inr (Or.inl (by decide))⟩

/-- C6: `_calculate` counts a row as negative exactly when its `class`
value is `"0"` and positive otherwise, and `num_instances` is their sum,
which is the number of rows. -/
theorem class_counting_spec (rows : List Row) (st : DSCalc)
    (h : datasetCalculate rows = .ok st) :
    st.numNeg = rows.countP (fun r => Row.lookup r "class" == some "0") ∧
    st.numPos = rows.countP (fun r => !(Row.lookup r "class" == some "0")) ∧
    st.numInstances = st.numPos + st.numNeg ∧
    st.numPos + st.numNeg = rows.length := by
  obtain ⟨r0, rs, hrw, hcl, _, _, _, _, _⟩ := datasetCalculate_ok rows st h
  obtain ⟨e1, e2⟩ := classifyLoop_ok rows (0, 0) (st.numPos, st.numNeg) hcl
  simp only at e1 e2
  refine ⟨by simpa using e2, by simpa using e1, rfl, ?_⟩
  have hpart := length_filter_partition rows
    fun r => !(Row.lookup r "class" == some "0")
  simp only [Bool.not_not] at hpart
  rw [List.countP_eq_length_filter] at e1 e2
  omega

/-- Witness for C6 on the 3-row scenario dataset (2 positive, 1 negative). -/
theorem class_counting_spec_witness :
    (DSCalc.numNeg ⟨2, 1, threeRowDataset, 4, 2, 2⟩ : Nat) =
      threeRowDataset.countP (fun r => Row.lookup r "class" == some "0") ∧
    (DSCalc.numPos ⟨2, 1, threeRowDataset, 4, 2, 2⟩ : Nat) =
      threeRowDataset.countP (fun r => !(Row.lookup r "class" == some "0")) ∧
    DSCalc.numInstances ⟨2, 1, threeRowDataset, 4, 2, 2⟩ =
      DSCalc.numPos ⟨2, 1, threeRowDataset, 4, 2, 2⟩ +
        DSCalc.numNeg ⟨2, 1, threeRowDataset, 4, 2, 2⟩ ∧
    DSCalc.numPos ⟨2, 1, threeRowDataset, 4, 2, 2⟩ +
        DSCalc.numNeg ⟨2, 1, threeRowDataset, 4, 2, 2⟩ = threeRowDataset.length :=
  class_counting_spec threeRowDataset ⟨2, 1, threeRowDataset, 4, 2, 2⟩ (by decide)

theorem exceptOk_bind {ε α β : Type _} (a : α) (f : α → Except ε β) :
    (Except.ok a >>= f) = f a := rfl

theorem exceptError_bind {ε α β : Type _} (e : ε) (f : α → Except ε β) :
    ((Except.error e : Except ε α) >>= f) = .error e := rfl

/-- C7 (counterexample to the claimed order): on a succeeding dataset the
CSV field list starts with `#Inst` and ends with `Dataset` — `Dataset` is
not the first field. -/
theorem report_field_order_counterexample :
    mainReportKeys [fullRow] = .ok
      ["#Inst", "#Pos", "#Neg", "%GO", "%PPI", "avg%GO=0", "avg%GO=1",
       "avg%PPI=0", "avg%PPI=(0;150]", "avg%PPI=(150;400]",
       "avg%PPI=(400;700]", "avg%PPI=(700;900]", "avg%PPI=(900;1000]",
       "Dataset"] ∧
    (["#Inst", "#Pos", "#Neg", "%GO", "%PPI", "avg%GO=0", "avg%GO=1",
      "avg%PPI=0", "avg%PPI=(0;150]", "avg%PPI=(150;400]",
      "avg%PPI=(400;700]", "avg%PPI=(700;900]", "avg%PPI=(900;1000]",
      "Dataset"] : List String) ≠
    ["Dataset", "#Inst", "#Pos", "#Neg", "%GO", "%PPI", "avg%GO=0",
     "avg%GO=1", "avg%PPI=0", "avg%PPI=(0;150]", "avg%PPI=(150;400]",
     "avg%PPI=(400;700]", "avg%PPI=(700;900]", "avg%PPI=(900;1000]"] := by
  constructor <;> decide

/-- C7 (amended): every successful report holds exactly the 13 statistic
fields of `get_stats`, in its dict order, and `main` appends `Dataset` as
the last CSV field (not the first). -/
theorem report_field_order (rows : List Row) (rep : List (String × ℚ))
    (h : datasetGetStats rows = .ok rep) :
    rep.map Prod.fst =
      ["#Inst", "#Pos", "#Neg", "%GO", "%PPI", "avg%GO=0", "avg%GO=1",
       "avg%PPI=0", "avg%PPI=(0;150]", "avg%PPI=(150;400]",
       "avg%PPI=(400;700]", "avg%PPI=(700;900]", "avg%PPI=(900;1000]"] ∧
    mainReportKeys rows = .ok
      ["#Inst", "#Pos", "#Neg", "%GO", "%PPI", "avg%GO=0", "avg%GO=1",
       "avg%PPI=0", "avg%PPI=(0;150]", "avg%PPI=(150;400]",
       "avg%PPI=(400;700]", "avg%PPI=(700;900]", "avg%PPI=(900;1000]",
       "Dataset"] := by
  have h0 := h
  unfold datasetGetStats at h
  rw [exceptBind_ok] at h
  obtain ⟨c, _, h⟩ := h
  rw [exceptBind_ok] at h
  obtain ⟨pGO, _, h⟩ := h
  rw [exceptBind_ok] at h
  obtain ⟨pPPI, _, h⟩ := h
  rw [exceptBind_ok] at h
  obtain ⟨avg, _, h⟩ := h
  rw [exceptBind_ok] at h
  obtain ⟨a1, _, h⟩ := h
  rw [exceptBind_ok] at h
  obtain ⟨a2, _, h⟩ := h
  rw [exceptBind_ok] at h
  obtain ⟨a3, _, h⟩ := h
  rw [exceptBind_ok] at h
  obtain ⟨a4, _, h⟩ := h
  rw [exceptBind_ok] at h
  obtain ⟨a5, _, h⟩ := h
  rw [exceptBind_ok] at h
  obtain ⟨a6, _, h⟩ := h
  rw [exceptBind_ok] at h
  obtain ⟨a7, _, h⟩ := h
  rw [exceptBind_ok] at h
  obtain ⟨a8, _, h⟩ := h
  rw [exceptPure_eq] at h
  cases h
  constructor
  · rfl
  · unfold mainReportKeys
    rw [h0]
    rfl

/-- Witness for the amended C7 on the one-row dataset. -/
theorem report_field_order_witness :
    fullRowRep.map Prod.fst =
      ["#Inst", "#Pos", "#Neg", "%GO", "%PPI", "avg%GO=0", "avg%GO=1",
       "avg%PPI=0", "avg%PPI=(0;150]", "avg%PPI=(150;400]",
       "avg%PPI=(400;700]", "avg%PPI=(700;900]", "avg%PPI=(900;1000]"] ∧
    mainReportKeys [fullRow] = .ok
      ["#Inst", "#Pos", "#Neg", "%GO", "%PPI", "avg%GO=0", "avg%GO=1",
       "avg%PPI=0", "avg%PPI=(0;150]", "avg%PPI=(150;400]",
       "avg%PPI=(400;700]", "avg%PPI=(700;900]", "avg%PPI=(900;1000]",
       "Dataset"] :=
  report_field_order [fullRow] fullRowRep (by decide)

/-- C10: a row with no GO features or no PPI features makes
`RowStats.get_stats` fail — with the `ZeroDivisionError` of the unguarded
percentage divisions whenever the two value counts succeed — and a
dataset whose reference `num_features` is 0 makes `DatasetStats.get_stats`
fail the same way on `%GO`. -/
theorem zero_feature_division_fails :
    (∀ r : Row, r.numGoFeatures = 0 ∨ r.numPpiFeatures = 0 →
      ∃ e, r.getStats = .error e) ∧
    (∀ (r : Row) (g : GoCounts) (p : PpiCounts),
      r.goValuesCounts = .ok g → r.ppiValuesCounts = .ok p →
      (r.numGoFeatures = 0 ∨ r.numPpiFeatures = 0) →
      r.getStats = .error "ZeroDivisionError: division by zero") ∧
    (∀ (rows : List Row) (st : DSCalc), datasetCalculate rows = .ok st →
      st.numFeatures = 0 →
      datasetGetStats rows = .error "ZeroDivisionError: division by zero") := by
  have hmain : ∀ (r : Row) (g : GoCounts) (p : PpiCounts),
      r.goValuesCounts = .ok g → r.ppiValuesCounts = .ok p →
      (r.numGoFeatures = 0 ∨ r.numPpiFeatures = 0) →
      r.getStats = .error "ZeroDivisionError: division by zero" := by
    intro r g p hg hp hzero
    unfold Row.getStats
    rw [hg, exceptOk_bind, hp, exceptOk_bind]
    by_cases hgz : r.numGoFeatures = 0
    · rw [hgz]
      simp only [Nat.cast_zero, fdiv, eq_self_iff_true, if_true, exceptError_bind]
    · have hpz : r.numPpiFeatures = 0 := hzero.resolve_left hgz
      have hne : ((r.numGoFeatures : ℚ)) ≠ 0 := by
        exact_mod_cast hgz
      simp only [fdiv, if_neg hne, exceptOk_bind, hpz, Nat.cast_zero,
        eq_self_iff_true, if_true, exceptError_bind]
  refine ⟨?_, hmain, ?_⟩
  · intro r hz
    cases hgv : r.goValuesCounts with
    | error e =>
      refine ⟨e, ?_⟩
      unfold Row.getStats
      rw [hgv, exceptError_bind]
    | ok g =>
      cases hpv : r.ppiValuesCounts with
      | error e =>
        refine ⟨e, ?_⟩
        unfold Row.getStats
        rw [hgv, exceptOk_bind, hpv, exceptError_bind]
      | ok p =>
        exact ⟨_, hmain r g p hgv hpv hz⟩
  · intro rows st h hf
    unfold datasetGetStats
    rw [h, exceptOk_bind, hf]
    simp only [Nat.cast_zero, fdiv, eq_self_iff_true, if_true, exceptError_bind]

/-- Witness for C10: a row with one PPI feature and no GO features. -/
theorem zero_feature_division_fails_witness :
    Row.getStats ⟨[("entrez", "E1"), ("class", "1"), ("p1", "0.5")]⟩ =
      .error "ZeroDivisionError: division by zero" :=
  zero_feature_division_fails.2.1 ⟨[("entrez", "E1"), ("class", "1"), ("p1", "0.5")]⟩
    ⟨0, 0⟩ ⟨0, 0, 0, 1, 0, 0⟩ (by decide) (by decide) (Or.inl (by decide))

theorem DS.calc_cached (s : DS) (c : DSCalc) (h : s.calcCache = some c) :
    DS.calc s = .ok (c, s) := by
  unfold DS.calc
  rw [h]

theorem DS.calc_state (s : DS) (c : DSCalc) (s1 : DS)
    (h : DS.calc s = .ok (c, s1)) :
    s1.dataset = s.dataset ∧ s1.calcCache = some c ∧ s1.avgCache = s.avgCache := by
  unfold DS.calc at h
  cases hc : s.calcCache with
  | some c0 =>
    simp only [hc] at h
    cases h
    exact ⟨rfl, hc, rfl⟩
  | none =>
    simp only [hc] at h
    rw [exceptBind_ok] at h
    obtain ⟨c', hcal, h⟩ := h
    rw [exceptPure_eq] at h
    cases h
    exact ⟨rfl, rfl, rfl⟩

theorem DS.avg_cached (s : DS) (a : List (String × ℚ)) (h : s.avgCache = some a) :
    DS.avg s = .ok (a, s) := by
  unfold DS.avg
  rw [h]

theorem DS.avg_state (s : DS) (a : List (String × ℚ)) (s2 : DS)
    (h : DS.avg s = .ok (a, s2)) :
    s2.avgCache = some a ∧ s2.dataset = s.dataset ∧
    (∀ c, s.calcCache = some c → s2.calcCache = some c) := by
  unfold DS.avg at h
  cases ha : s.avgCache with
  | some a0 =>
    simp only [ha] at h
    cases h
    exact ⟨ha, rfl, fun c hc => hc⟩
  | none =>
    simp only [ha] at h
    rw [exceptBind_ok] at h
    obtain ⟨cs, hcalc, h⟩ := h
    rw [exceptBind_ok] at h
    obtain ⟨a', havg, h⟩ := h
    rw [exceptPure_eq] at h
    cases h
    obtain ⟨hd, hcc, _⟩ := DS.calc_state s cs.1 cs.2 (by rw [hcalc])
    refine ⟨rfl, hd, ?_⟩
    intro c hc
    have hcs : DS.calc s = .ok (c, s) := DS.calc_cached s c hc
    rw [hcs] at hcalc
    cases hcalc
    simpa using hc

theorem RS.goCounts_cached (t : RS) (g : GoCounts) (h : t.goCache = some g) :
    RS.goCounts t = .ok (g, t) := by
  unfold RS.goCounts
  rw [h]

theorem RS.goCounts_state (t : RS) (g : GoCounts) (t1 : RS)
    (h : RS.goCounts t = .ok (g, t1)) :
    t1.row = t.row ∧ t1.goCache = some g ∧ t1.ppiCache = t.ppiCache := by
  unfold RS.goCounts at h
  cases hc : t.goCache with
  | some g0 =>
    simp only [hc] at h
    cases h
    exact ⟨rfl, hc, rfl⟩
  | none =>
    simp only [hc] at h
    rw [exceptBind_ok] at h
    obtain ⟨g', hgv, h⟩ := h
    rw [exceptPure_eq] at h
    cases h
    exact ⟨rfl, rfl, rfl⟩

theorem RS.ppiCounts_cached (t : RS) (p : PpiCounts) (h : t.ppiCache = some p) :
    RS.ppiCounts t = .ok (p, t) := by
  unfold RS.ppiCounts
  rw [h]

theorem RS.ppiCounts_state (t : RS) (p : PpiCounts) (t2 : RS)
    (h : RS.ppiCounts t = .ok (p, t2)) :
    t2.row = t.row ∧ t2.ppiCache = some p ∧ t2.goCache = t.goCache := by
  unfold RS.ppiCounts at h
  cases hc : t.ppiCache with
  | some p0 =>
    simp only [hc] at h
    cases h
    exact ⟨rfl, hc, rfl⟩
  | none =>
    simp only [hc] at h
    rw [exceptBind_ok] at h
    obtain ⟨p', hpv, h⟩ := h
    rw [exceptPure_eq] at h
    cases h
    exact ⟨rfl, rfl, rfl⟩

/-- C8: calling `get_stats` a second time on the same (now cache-filled)
object returns exactly the first result and leaves the object unchanged,
both for `DatasetStats` and for `RowStats`. -/
theorem get_stats_idempotent :
    (∀ (s : DS) (rep : List (String × ℚ)) (s' : DS),
      DS.getStats s = .ok (rep, s') → DS.getStats s' = .ok (rep, s')) ∧
    (∀ (t : RS) (rep : List (String × ℚ)) (t' : RS),
      RS.getStats t = .ok (rep, t') → RS.getStats t' = .ok (rep, t')) := by
  constructor
  · intro s rep s' h
    unfold DS.getStats at h
    rw [exceptBind_ok] at h
    obtain ⟨cs, hcalc, h⟩ := h
    rw [exceptBind_ok] at h
    obtain ⟨pGO, hpGO, h⟩ := h
    rw [exceptBind_ok] at h
    obtain ⟨pPPI, hpPPI, h⟩ := h
    rw [exceptBind_ok] at h
    obtain ⟨as2, havg, h⟩ := h
    rw [exceptBind_ok] at h
    obtain ⟨a1, h1, h⟩ := h
    rw [exceptBind_ok] at h
    obtain ⟨a2, h2, h⟩ := h
    rw [exceptBind_ok] at h
    obtain ⟨a3, h3, h⟩ := h
    rw [exceptBind_ok] at h
    obtain ⟨a4, h4, h⟩ := h
    rw [exceptBind_ok] at h
    obtain ⟨a5, h5, h⟩ := h
    rw [exceptBind_ok] at h
    obtain ⟨a6, h6, h⟩ := h
    rw [exceptBind_ok] at h
    obtain ⟨a7, h7, h⟩ := h
    rw [exceptBind_ok] at h
    obtain ⟨a8, h8, h⟩ := h
    rw [exceptPure_eq] at h
    cases h
    obtain ⟨hd1, hcc1, hac1⟩ := DS.calc_state s cs.1 cs.2 (by rw [hcalc])
    obtain ⟨hac2, hd2, hcc2⟩ :=
      DS.avg_state cs.2 as2.1 as2.2 (by rw [havg])
    have hs2calc : as2.2.calcCache = some cs.1 := hcc2 cs.1 hcc1
    simp only [DS.getStats, DS.calc_cached as2.2 cs.1 hs2calc, exceptOk_bind,
      hpGO, DS.avg_cached as2.2 as2.1 hac2, h1, h2, h3, h4, h5, h6, h7, h8,
      hpPPI, exceptPure_eq]
  · intro t rep t' h
    unfold RS.getStats at h
    rw [exceptBind_ok] at h
    obtain ⟨gs1, hgc, h⟩ := h
    rw [exceptBind_ok] at h
    obtain ⟨ps2, hpc, h⟩ := h
    rw [exceptBind_ok] at h
    obtain ⟨d1, hd1, h⟩ := h
    rw [exceptBind_ok] at h
    obtain ⟨d2, hd2, h⟩ := h
    rw [exceptBind_ok] at h
    obtain ⟨d3, hd3, h⟩ := h
    rw [exceptBind_ok] at h
    obtain ⟨d4, hd4, h⟩ := h
    rw [exceptBind_ok] at h
    obtain ⟨d5, hd5, h⟩ := h
    rw [exceptBind_ok] at h
    obtain ⟨d6, hd6, h⟩ := h
    rw [exceptBind_ok] at h
    obtain ⟨d7, hd7, h⟩ := h
    rw [exceptBind_ok] at h
    obtain ⟨d8, hd8, h⟩ := h
    rw [exceptPure_eq] at h
    cases h
    obtain ⟨hr1, hgc1, hpc1⟩ := RS.goCounts_state t gs1.1 gs1.2 (by rw [hgc])
    obtain ⟨hr2, hpc2, hgc2⟩ :=
      RS.ppiCounts_state gs1.2 ps2.1 ps2.2 (by rw [hpc])
    have hgc3 : ps2.2.goCache = some gs1.1 := by rw [hgc2, hgc1]
    simp only [RS.getStats, RS.goCounts_cached ps2.2 gs1.1 hgc3, exceptOk_bind,
      RS.ppiCounts_cached ps2.2 ps2.1 hpc2, hd1, hd2, hd3, hd4, hd5, hd6, hd7,
      hd8, exceptPure_eq]

/-- Witness for C8: on the one-row dataset the first call succeeds and the
second call returns the identical report and state. -/
theorem get_stats_idempotent_witness :
    ∃ (rep : List (String × ℚ)) (s' : DS),
      DS.getStats (DS.init [fullRow]) = .ok (rep, s') ∧
      DS.getStats s' = .ok (rep, s') := by
  obtain ⟨a, ha⟩ :=
    (exceptIsOk_iff (DS.getStats (DS.init [fullRow]))).mp (by decide)
  exact ⟨a.1, a.2, by rw [ha], get_stats_idempotent.1 _ a.1 a.2 (by rw [ha])⟩
